import Mathlib

/-
Shallow embedding of the Vital Signs Evaluator from
src/agents/vital_signs_monitor.py (class VitalSignsMonitor).

Modelling choices:
- Python floats (temperature, band bounds) are modelled as rationals; all
  constants compared in the claims (36.1, 37.8, 37.0, ...) are exact decimals.
- `datetime` timestamps are modelled as an abstract integer instant; the code
  only stores and returns them.
- The nested configuration dictionary `self.thresholds` is modelled by a
  structure of `Option` fields: a `none` field is an absent key, mirroring
  `dict.get(key, default)` lookups.
- The per-patient history dictionary `self.patient_data` is modelled as a
  function `String → Option (List VitalSigns)`: `none` is an absent key.
- The LLM narrative call in `analyze_trends` is opaque: it is modelled as a
  caller-supplied function of exactly the values the source interpolates into
  the prompt (number of readings, latest systolic/diastolic BP, latest heart
  rate, latest temperature).
- `async` methods have no suspension-relevant behaviour here and are modelled
  as pure functions; mutation of `self` is modelled by returning the new state.
- The Python slice `history[-days*3:]` is modelled by `pySliceFrom` with
  CPython slice-start semantics for arbitrary integer starts.
- `recent_readings[-1]` on an empty list raises IndexError in Python; the
  embedding returns `none` (no result) in that case.
-/

namespace HealthGuardian

/-- Model of the pydantic `VitalSigns` record (vital_signs_monitor.py, lines 12-21). -/
structure VitalSigns where
  patient_id : String
  timestamp : Int
  blood_pressure_systolic : Int
  blood_pressure_diastolic : Int
  heart_rate : Int
  temperature : ℚ
  blood_glucose : Option Int := none
  oxygen_saturation : Option Int := none
  deriving DecidableEq

/-- Model of the `blood_pressure` entry of the threshold configuration:
`self.thresholds.get('blood_pressure', {})` with optional `systolic` and
`diastolic` keys, each a `[low, high]` pair. -/
structure BloodPressureThresholds where
  systolic : Option (ℚ × ℚ) := none
  diastolic : Option (ℚ × ℚ) := none
  deriving DecidableEq

/-- Model of the threshold configuration `self.thresholds = config.get('thresholds', {})`:
the keys read by `_check_thresholds` are `blood_pressure` (a nested mapping),
`heart_rate` and `temperature` (each a `[low, high]` pair); any key may be absent. -/
structure Thresholds where
  blood_pressure : Option BloodPressureThresholds := none
  heart_rate : Option (ℚ × ℚ) := none
  temperature : Option (ℚ × ℚ) := none
  deriving DecidableEq

/-- Model of one alert dictionary appended by `_check_thresholds`:
`{"type": ..., "value": ..., "threshold": ..., "severity": ...}`. -/
structure Alert where
  type : String
  value : ℚ
  threshold : ℚ × ℚ
  severity : String
  deriving DecidableEq

/-- Lookup `systolic_range`: `self.thresholds.get('blood_pressure', {}).get('systolic', [90, 140])`. -/
def sysRange (t : Thresholds) : ℚ × ℚ :=
  ((t.blood_pressure.getD ⟨none, none⟩).systolic).getD (90, 140)

/-- Lookup `diastolic_range`: `self.thresholds.get('blood_pressure', {}).get('diastolic', [60, 90])`.
Bound in the source but never used by any check. -/
def diasRange (t : Thresholds) : ℚ × ℚ :=
  ((t.blood_pressure.getD ⟨none, none⟩).diastolic).getD (60, 90)

/-- Lookup `hr_range`: `self.thresholds.get('heart_rate', [60, 100])`. -/
def hrRange (t : Thresholds) : ℚ × ℚ :=
  (t.heart_rate).getD (60, 100)

/-- Lookup `temp_range`: `self.thresholds.get('temperature', [36.1, 37.8])`. -/
def tempRange (t : Thresholds) : ℚ × ℚ :=
  (t.temperature).getD (36.1, 37.8)

/-- The alert-emission pattern repeated three times in `_check_thresholds`:
`if not (range[0] <= value <= range[1]): alerts.append({..., "severity":
"high" if value > range[1] else "low"})`.  Returns the empty list or the
singleton appended alert. -/
def bandAlert (ty : String) (r : ℚ × ℚ) (v : ℚ) : List Alert :=
  if ¬ (r.1 ≤ v ∧ v ≤ r.2) then
    [⟨ty, v, r, if v > r.2 then "high" else "low"⟩]
  else []

/-- Model of `_check_thresholds` (vital_signs_monitor.py, lines 71-108): the
`alerts` list accumulated by the three sequential checks, in source order
(systolic blood pressure, then heart rate, then temperature).  The diastolic
range is looked up by the source but not checked. -/
def check_thresholds (t : Thresholds) (vs : VitalSigns) : List Alert :=
  bandAlert "blood_pressure_systolic" (sysRange t) (vs.blood_pressure_systolic : ℚ) ++
  bandAlert "heart_rate" (hrRange t) (vs.heart_rate : ℚ) ++
  bandAlert "temperature" (tempRange t) vs.temperature

/-- Mutable state of a `VitalSignsMonitor` instance relevant to the claims:
the threshold configuration and the per-patient history map `self.patient_data`. -/
structure VitalSignsMonitor where
  thresholds : Thresholds
  patient_data : String → Option (List VitalSigns)

/-- The dictionary returned by `record_vital_signs`:
`{"recorded": True, "alerts": alerts, "timestamp": vital_signs.timestamp}`. -/
structure RecordResult where
  recorded : Bool
  alerts : List Alert
  timestamp : Int
  deriving DecidableEq

/-- Model of `record_vital_signs` (vital_signs_monitor.py, lines 50-69):
creates the patient's history entry if absent, appends the reading, computes
alerts via `_check_thresholds`, and returns the result dictionary.  Mutation of
`self.patient_data` is modelled by returning the updated monitor. -/
def record_vital_signs (self : VitalSignsMonitor) (vs : VitalSigns) :
    VitalSignsMonitor × RecordResult :=
  let history := (self.patient_data vs.patient_id).getD []
  let patient_data' : String → Option (List VitalSigns) :=
    fun pid => if pid = vs.patient_id then some (history ++ [vs]) else self.patient_data pid
  let alerts := check_thresholds self.thresholds vs
  (⟨self.thresholds, patient_data'⟩, ⟨true, alerts, vs.timestamp⟩)

/-- Calling `record_vital_signs` on each reading of a list in turn, threading
the monitor state; returns the final state and the per-call results in order. -/
def recordAll : VitalSignsMonitor → List VitalSigns → VitalSignsMonitor × List RecordResult
  | self, [] => (self, [])
  | self, vs :: rest =>
    let step := record_vital_signs self vs
    let others := recordAll step.1 rest
    (others.1, step.2 :: others.2)

/-- CPython semantics of the slice `l[start:]` for an arbitrary integer start:
a negative start counts from the end (clamped at 0), a non-negative start is
clamped at `len(l)`. -/
def pySliceFrom {α : Type} (start : Int) (l : List α) : List α :=
  let n : Int := l.length
  let s : Int := if start < 0 then max (n + start) 0 else min start n
  l.drop s.toNat

/-- The success dictionary returned by `analyze_trends`:
`{"patient_id": ..., "period_days": days, "readings_analyzed": len(recent_readings),
"analysis": analysis.content}`. -/
structure TrendsSummary where
  patient_id : String
  period_days : Int
  readings_analyzed : Nat
  analysis : String
  deriving DecidableEq

/-- Result of `analyze_trends`: either the error dictionary
`{"error": "No data available"}` or the success summary. -/
inductive TrendsResult where
  | failure (message : String)
  | summary (s : TrendsSummary)
  deriving DecidableEq

/-- Model of `analyze_trends` (vital_signs_monitor.py, lines 110-137).
`generate` is the opaque narrative generator, applied to the values the source
interpolates into the prompt: the number of recent readings and the latest
reading's systolic BP, diastolic BP, heart rate and temperature.  The overall
`Option` is `none` exactly when the source would raise IndexError at
`recent_readings[-1]` (possible only when the slice is empty). -/
def analyze_trends (generate : Nat → Int → Int → Int → ℚ → String)
    (self : VitalSignsMonitor) (patient_id : String) (days : Int) :
    Option TrendsResult :=
  match self.patient_data patient_id with
  | none => some (.failure "No data available")
  | some hist =>
    if hist.isEmpty then some (.failure "No data available")
    else
      let recent := pySliceFrom ((-days) * 3) hist
      match recent.getLast? with
      | none => none
      | some last =>
        some (.summary ⟨patient_id, days, recent.length,
          generate recent.length last.blood_pressure_systolic
            last.blood_pressure_diastolic last.heart_rate last.temperature⟩)

/-! ## Theorems -/

/-- C1: for every VitalSigns reading whose systolic blood pressure, heart rate
and temperature each lie within their respective configured (or default) band
inclusive, `record_vital_signs` returns an empty alert list. -/
theorem record_inband_no_alerts (self : VitalSignsMonitor) (vs : VitalSigns)
    (hsys : (sysRange self.thresholds).1 ≤ (vs.blood_pressure_systolic : ℚ) ∧
      (vs.blood_pressure_systolic : ℚ) ≤ (sysRange self.thresholds).2)
    (hhr : (hrRange self.thresholds).1 ≤ (vs.heart_rate : ℚ) ∧
      (vs.heart_rate : ℚ) ≤ (hrRange self.thresholds).2)
    (htemp : (tempRange self.thresholds).1 ≤ vs.temperature ∧
      vs.temperature ≤ (tempRange self.thresholds).2) :
    (record_vital_signs self vs).2.alerts = [] := by
  have e : check_thresholds self.thresholds vs = [] := by
    unfold check_thresholds bandAlert
    rw [if_neg (not_not_intro hsys), if_neg (not_not_intro hhr),
      if_neg (not_not_intro htemp)]
    rfl
  exact e

/-- Witness for C1: an all-in-band reading (explicit integer temperature band
so every bound is an integer rational) produces no alerts. -/
theorem record_inband_no_alerts_witness :
    (record_vital_signs ⟨⟨none, none, some (36, 38)⟩, fun _ => none⟩
      ⟨"p1", 5, 120, 80, 75, 37, none, none⟩).2.alerts = [] :=
  record_inband_no_alerts _ _ (by decide) (by decide) (by decide)

/-- C2: the reading {systolic:150, diastolic:95, heart_rate:110,
temperature:37.0} under default bands yields exactly two alerts, systolic/high
then heart_rate/high; no alert for the out-of-band diastolic 95 (never
evaluated) and none for temperature (37.0 lies in [36.1, 37.8]). -/
theorem record_concrete_two_alerts :
    (record_vital_signs ⟨⟨none, none, none⟩, fun _ => none⟩
        ⟨"p1", 0, 150, 95, 110, 37, none, none⟩).2.alerts =
      [⟨"blood_pressure_systolic", 150, (90, 140), "high"⟩,
       ⟨"heart_rate", 110, (60, 100), "high"⟩] := by
  show check_thresholds _ _ = _
  norm_num [check_thresholds, bandAlert, sysRange, hrRange, tempRange]

/-- C3 counterexample: `record_vital_signs` does not reject the empty patient
identifier — the reading is accepted (`recorded = true`) and stored under the
key `""` like any other reading; the source performs no input validation. -/
theorem record_empty_id_accepted :
    (record_vital_signs ⟨⟨none, none, some (36, 38)⟩, fun _ => none⟩
        ⟨"", 0, 120, 80, 75, 37, none, none⟩).2.recorded = true ∧
    (record_vital_signs ⟨⟨none, none, some (36, 38)⟩, fun _ => none⟩
        ⟨"", 0, 120, 80, 75, 37, none, none⟩).1.patient_data "" =
      some [⟨"", 0, 120, 80, 75, 37, none, none⟩] := by
  constructor
  · rfl
  · decide

/-- C3 amended: `record_vital_signs` performs no input validation and has no
error conditions: every reading, including one whose patient identifier is the
empty string, is recorded (the result always has `recorded = true` and the
reading is appended to its patient's history). -/
theorem record_never_errors (self : VitalSignsMonitor) (vs : VitalSigns) :
    (record_vital_signs self vs).2.recorded = true ∧
    (record_vital_signs self vs).1.patient_data vs.patient_id =
      some ((self.patient_data vs.patient_id).getD [] ++ [vs]) := by
  refine ⟨rfl, ?_⟩
  show (if vs.patient_id = vs.patient_id then _ else _) = _
  rw [if_pos rfl]

/-- C4: for every patient identifier with no recorded history (absent from the
history map or mapped to an empty list), `analyze_trends` returns the error
dictionary `{"error": "No data available"}`, for any days argument. -/
theorem analyze_trends_no_data (g : Nat → Int → Int → Int → ℚ → String)
    (self : VitalSignsMonitor) (pid : String) (days : Int)
    (h : self.patient_data pid = none ∨ self.patient_data pid = some []) :
    analyze_trends g self pid days = some (.failure "No data available") := by
  rcases h with h | h <;> simp [analyze_trends, h]

/-- Witness for C4: a monitor with an empty history map reports no data. -/
theorem analyze_trends_no_data_witness :
    analyze_trends (fun _ _ _ _ _ => "") ⟨⟨none, none, none⟩, fun _ => none⟩
        "p1" 7 = some (.failure "No data available") :=
  analyze_trends_no_data _ _ _ _ (Or.inl rfl)

/-- C9: recording a reading for one patient leaves every other patient's
history unchanged and leaves the threshold configuration unchanged. -/
theorem record_preserves_other_patients (self : VitalSignsMonitor)
    (vs : VitalSigns) (q : String) (hq : q ≠ vs.patient_id) :
    (record_vital_signs self vs).1.patient_data q = self.patient_data q ∧
    (record_vital_signs self vs).1.thresholds = self.thresholds := by
  refine ⟨?_, rfl⟩
  show (if q = vs.patient_id then _ else _) = _
  rw [if_neg hq]

/-- Witness for C9: recording for patient p1 does not touch patient p2's
(absent) history. -/
theorem record_preserves_other_patients_witness :
    (record_vital_signs ⟨⟨none, none, none⟩, fun _ => none⟩
        ⟨"p1", 0, 120, 80, 75, 37, none, none⟩).1.patient_data "p2" =
      (⟨⟨none, none, none⟩, fun _ => none⟩ : VitalSignsMonitor).patient_data "p2" ∧
    (record_vital_signs ⟨⟨none, none, none⟩, fun _ => none⟩
        ⟨"p1", 0, 120, 80, 75, 37, none, none⟩).1.thresholds =
      (⟨⟨none, none, none⟩, fun _ => none⟩ : VitalSignsMonitor).thresholds :=
  record_preserves_other_patients _ _ "p2" (by decide)

/-- A band check contributes one alert of its own type exactly when the value
is out of band. -/
lemma bandAlert_countP_self (ty : String) (r : ℚ × ℚ) (v : ℚ) :
    (bandAlert ty r v).countP (fun a => a.type == ty) =
      if r.1 ≤ v ∧ v ≤ r.2 then 0 else 1 := by
  unfold bandAlert
  by_cases h : r.1 ≤ v ∧ v ≤ r.2
  · rw [if_neg (not_not_intro h), if_pos h]
    rfl
  · rw [if_pos h, if_neg h]
    simp

/-- A band check never contributes an alert of a different type. -/
lemma bandAlert_countP_ne (ty ty' : String) (r : ℚ × ℚ) (v : ℚ) (h : ty ≠ ty') :
    (bandAlert ty r v).countP (fun a => a.type == ty') = 0 := by
  unfold bandAlert
  split_ifs <;> simp [h]

/-- For a well-formed band (lower bound at most upper bound), every emitted
alert's severity is `high` exactly when the value is strictly above the upper
bound and `low` exactly when it is strictly below the lower bound. -/
lemma bandAlert_severity (ty : String) (r : ℚ × ℚ) (v : ℚ) (hr : r.1 ≤ r.2) :
    ∀ a ∈ bandAlert ty r v,
      (a.severity = "high" ↔ a.threshold.2 < a.value) ∧
      (a.severity = "low" ↔ a.value < a.threshold.1) := by
  intro a ha
  unfold bandAlert at ha
  by_cases h : r.1 ≤ v ∧ v ≤ r.2
  · rw [if_neg (not_not_intro h)] at ha
    exact absurd ha (List.not_mem_nil a)
  · rw [if_pos h] at ha
    simp only [List.mem_singleton] at ha
    subst ha
    by_cases hv : v > r.2
    · rw [if_pos hv]
      show ("high" = "high" ↔ r.2 < v) ∧ ("high" = "low" ↔ v < r.1)
      refine ⟨⟨fun _ => hv, fun _ => rfl⟩, ?_, ?_⟩
      · intro hc
        exact absurd hc (by decide)
      · intro hlt
        exact absurd hr (not_le.mpr (lt_trans hv hlt))
    · rw [if_neg hv]
      show ("low" = "high" ↔ r.2 < v) ∧ ("low" = "low" ↔ v < r.1)
      have hlow : v < r.1 := by
        rcases not_and_or.mp h with h1 | h2
        · exact not_le.mp h1
        · exact absurd (not_le.mp h2) hv
      exact ⟨⟨fun hc => absurd hc (by decide), fun hgt => absurd hgt hv⟩,
        fun _ => hlow, fun _ => rfl⟩

/-- C5 counterexample: under the inverted heart-rate band [100, 60] (a
threshold configuration the claim quantifies over), the value 80 is strictly
below the lower bound 100 yet the emitted alert has severity `high`, because
the source chooses `high` whenever the value exceeds the upper bound. -/
theorem check_thresholds_severity_inverted_band :
    ¬ ∀ a ∈ check_thresholds ⟨none, some (100, 60), some (36, 38)⟩
        ⟨"p1", 0, 120, 80, 80, 37, none, none⟩,
      (a.severity = "low" ↔ a.value < a.threshold.1) := by
  decide

/-- C5 amended: for every reading and every threshold configuration whose
evaluated bands are well-formed (lower bound at most upper bound), the
threshold check emits exactly one alert per evaluated vital type whose value is
out of band and never more than one per type, and an emitted alert has severity
`high` iff the value is strictly above the band's upper bound and `low` iff
strictly below its lower bound. -/
theorem check_thresholds_alert_invariant (t : Thresholds) (vs : VitalSigns)
    (hs : (sysRange t).1 ≤ (sysRange t).2)
    (hh : (hrRange t).1 ≤ (hrRange t).2)
    (ht : (tempRange t).1 ≤ (tempRange t).2) :
    ((check_thresholds t vs).countP (fun a => a.type == "blood_pressure_systolic") =
      if (sysRange t).1 ≤ (vs.blood_pressure_systolic : ℚ) ∧
          (vs.blood_pressure_systolic : ℚ) ≤ (sysRange t).2 then 0 else 1) ∧
    ((check_thresholds t vs).countP (fun a => a.type == "heart_rate") =
      if (hrRange t).1 ≤ (vs.heart_rate : ℚ) ∧
          (vs.heart_rate : ℚ) ≤ (hrRange t).2 then 0 else 1) ∧
    ((check_thresholds t vs).countP (fun a => a.type == "temperature") =
      if (tempRange t).1 ≤ vs.temperature ∧
          vs.temperature ≤ (tempRange t).2 then 0 else 1) ∧
    ∀ a ∈ check_thresholds t vs,
      (a.severity = "high" ↔ a.threshold.2 < a.value) ∧
      (a.severity = "low" ↔ a.value < a.threshold.1) := by
  unfold check_thresholds
  refine ⟨?_, ?_, ?_, ?_⟩
  · rw [List.countP_append, List.countP_append, bandAlert_countP_self,
      bandAlert_countP_ne _ _ _ _ (by decide), bandAlert_countP_ne _ _ _ _ (by decide)]
    omega
  · rw [List.countP_append, List.countP_append, bandAlert_countP_self,
      bandAlert_countP_ne _ _ _ _ (by decide), bandAlert_countP_ne _ _ _ _ (by decide)]
    omega
  · rw [List.countP_append, List.countP_append, bandAlert_countP_self,
      bandAlert_countP_ne _ _ _ _ (by decide), bandAlert_countP_ne _ _ _ _ (by decide)]
    omega
  · intro a ha
    rcases List.mem_append.mp ha with ha' | ha'
    · rcases List.mem_append.mp ha' with hb | hb
      · exact bandAlert_severity _ _ _ hs a hb
      · exact bandAlert_severity _ _ _ hh a hb
    · exact bandAlert_severity _ _ _ ht a ha'

/-- Witness for C5 amended: under all-integer explicit bands, the reading with
systolic 150 triggers exactly one systolic alert and no heart-rate or
temperature alert, and each emitted alert's severity matches the bound it
crosses. -/
theorem check_thresholds_alert_invariant_witness :
    (((check_thresholds ⟨some ⟨some (90, 140), some (60, 90)⟩, some (60, 100), some (36, 38)⟩
        ⟨"p1", 0, 150, 95, 110, 37, none, none⟩).countP
        (fun a => a.type == "blood_pressure_systolic") = 1) ∧
     ((check_thresholds ⟨some ⟨some (90, 140), some (60, 90)⟩, some (60, 100), some (36, 38)⟩
        ⟨"p1", 0, 150, 95, 110, 37, none, none⟩).countP
        (fun a => a.type == "temperature") = 0)) ∧
    ∀ a ∈ check_thresholds ⟨some ⟨some (90, 140), some (60, 90)⟩, some (60, 100), some (36, 38)⟩
        ⟨"p1", 0, 150, 95, 110, 37, none, none⟩,
      (a.severity = "high" ↔ a.threshold.2 < a.value) ∧
      (a.severity = "low" ↔ a.value < a.threshold.1) := by
  have h := check_thresholds_alert_invariant
    ⟨some ⟨some (90, 140), some (60, 90)⟩, some (60, 100), some (36, 38)⟩
    ⟨"p1", 0, 150, 95, 110, 37, none, none⟩ (by decide) (by decide) (by decide)
  exact ⟨⟨by rw [h.1]; decide, by rw [h.2.2.1]; decide⟩, h.2.2.2⟩

/-- A band check's alert types are the empty list or the singleton of its own
type, according to whether the value is in band. -/
lemma bandAlert_map_type (ty : String) (r : ℚ × ℚ) (v : ℚ) :
    (bandAlert ty r v).map (fun a => a.type) =
      if r.1 ≤ v ∧ v ≤ r.2 then [] else [ty] := by
  unfold bandAlert
  by_cases h : r.1 ≤ v ∧ v ≤ r.2
  · rw [if_neg (not_not_intro h), if_pos h]
    rfl
  · rw [if_pos h, if_neg h]
    rfl

/-- C6: the alert list of the threshold check always follows evaluation order
(systolic blood pressure, then heart rate, then temperature: its types form a
sublist of that order), and an absent band falls back to the documented
defaults: systolic [90, 140], heart rate [60, 100], temperature [36.1, 37.8]. -/
theorem check_thresholds_order_defaults (t : Thresholds) (vs : VitalSigns) :
    List.Sublist ((check_thresholds t vs).map (fun a => a.type))
      ["blood_pressure_systolic", "heart_rate", "temperature"] ∧
    ((t.blood_pressure.getD ⟨none, none⟩).systolic = none → sysRange t = (90, 140)) ∧
    (t.heart_rate = none → hrRange t = (60, 100)) ∧
    (t.temperature = none → tempRange t = (36.1, 37.8)) := by
  refine ⟨?_, ?_, ?_, ?_⟩
  · unfold check_thresholds
    rw [List.map_append, List.map_append, bandAlert_map_type, bandAlert_map_type,
      bandAlert_map_type]
    split_ifs <;> decide
  · intro h
    simp [sysRange, h]
  · intro h
    simp [hrRange, h]
  · intro h
    simp [tempRange, h]

/-- Witness for C6: with an entirely absent configuration, all three defaults
apply, and a concrete reading's alert types follow evaluation order. -/
theorem check_thresholds_order_defaults_witness :
    List.Sublist ((check_thresholds ⟨none, none, none⟩
        ⟨"p1", 0, 150, 95, 110, 37, none, none⟩).map (fun a => a.type))
      ["blood_pressure_systolic", "heart_rate", "temperature"] ∧
    sysRange ⟨none, none, none⟩ = (90, 140) ∧
    hrRange ⟨none, none, none⟩ = (60, 100) ∧
    tempRange ⟨none, none, none⟩ = (36.1, 37.8) :=
  ⟨(check_thresholds_order_defaults ⟨none, none, none⟩
      ⟨"p1", 0, 150, 95, 110, 37, none, none⟩).1,
   (check_thresholds_order_defaults ⟨none, none, none⟩
      ⟨"p1", 0, 150, 95, 110, 37, none, none⟩).2.1 rfl,
   (check_thresholds_order_defaults ⟨none, none, none⟩
      ⟨"p1", 0, 150, 95, 110, 37, none, none⟩).2.2.1 rfl,
   (check_thresholds_order_defaults ⟨none, none, none⟩
      ⟨"p1", 0, 150, 95, 110, 37, none, none⟩).2.2.2 rfl⟩

/-- Recording a list of readings all belonging to patient P appends them, in
order, to P's existing history. -/
lemma recordAll_history_append :
    ∀ (readings : List VitalSigns) (self : VitalSignsMonitor) (P : String),
      (∀ r ∈ readings, r.patient_id = P) →
      ((recordAll self readings).1.patient_data P).getD [] =
        (self.patient_data P).getD [] ++ readings := by
  intro readings
  induction readings with
  | nil =>
    intro self P _
    simp [recordAll]
  | cons r rs ih =>
    intro self P h
    have hr : r.patient_id = P := h r (List.mem_cons_self r rs)
    have hrest : ∀ x ∈ rs, x.patient_id = P := fun x hx => h x (List.mem_cons_of_mem r hx)
    show ((recordAll (record_vital_signs self r).1 rs).1.patient_data P).getD [] = _
    rw [ih (record_vital_signs self r).1 P hrest]
    have hstep : ((record_vital_signs self r).1.patient_data P).getD [] =
        (self.patient_data P).getD [] ++ [r] := by
      show (if P = r.patient_id
          then some ((self.patient_data r.patient_id).getD [] ++ [r])
          else self.patient_data P).getD [] = _
      rw [if_pos hr.symm, hr]
      rfl
    rw [hstep, List.append_assoc]
    rfl

/-- The per-call results of recording a list of readings return, in order,
exactly the submitted readings' own timestamps. -/
lemma recordAll_timestamps :
    ∀ (readings : List VitalSigns) (self : VitalSignsMonitor),
      (recordAll self readings).2.map (fun res => res.timestamp) =
        readings.map (fun r => r.timestamp) := by
  intro readings
  induction readings with
  | nil =>
    intro self
    rfl
  | cons r rs ih =>
    intro self
    show (record_vital_signs self r).2.timestamp ::
        ((recordAll (record_vital_signs self r).1 rs).2.map (fun res => res.timestamp)) =
      r.timestamp :: rs.map (fun x => x.timestamp)
    rw [ih]
    rfl

/-- C7: starting from an empty history for patient P, recording a sequence of
N readings for P in turn yields a history for P that is exactly that sequence
(so of length N, in insertion order), and each call's result carries the
submitted reading's own timestamp unchanged. -/
theorem recordAll_history_length_order (self : VitalSignsMonitor) (P : String)
    (readings : List VitalSigns)
    (hP : ∀ r ∈ readings, r.patient_id = P)
    (h0 : (self.patient_data P).getD [] = []) :
    ((recordAll self readings).1.patient_data P).getD [] = readings ∧
    (((recordAll self readings).1.patient_data P).getD []).length = readings.length ∧
    (recordAll self readings).2.map (fun res => res.timestamp) =
      readings.map (fun r => r.timestamp) := by
  have h1 := recordAll_history_append readings self P hP
  rw [h0, List.nil_append] at h1
  exact ⟨h1, by rw [h1], recordAll_timestamps readings self⟩

/-- Witness for C7: recording two readings for patient p1 on a fresh monitor
yields exactly that two-element history and per-call timestamps 1 and 2. -/
theorem recordAll_history_length_order_witness :
    ((recordAll ⟨⟨none, none, none⟩, fun _ => none⟩
        [⟨"p1", 1, 120, 80, 75, 37, none, none⟩,
         ⟨"p1", 2, 121, 81, 76, 37, none, none⟩]).1.patient_data "p1").getD [] =
      [⟨"p1", 1, 120, 80, 75, 37, none, none⟩,
       ⟨"p1", 2, 121, 81, 76, 37, none, none⟩] ∧
    (((recordAll ⟨⟨none, none, none⟩, fun _ => none⟩
        [⟨"p1", 1, 120, 80, 75, 37, none, none⟩,
         ⟨"p1", 2, 121, 81, 76, 37, none, none⟩]).1.patient_data "p1").getD []).length = 2 ∧
    (recordAll ⟨⟨none, none, none⟩, fun _ => none⟩
        [⟨"p1", 1, 120, 80, 75, 37, none, none⟩,
         ⟨"p1", 2, 121, 81, 76, 37, none, none⟩]).2.map (fun res => res.timestamp) =
      [(1 : Int), 2] :=
  recordAll_history_length_order ⟨⟨none, none, none⟩, fun _ => none⟩ "p1"
    [⟨"p1", 1, 120, 80, 75, 37, none, none⟩, ⟨"p1", 2, 121, 81, 76, 37, none, none⟩]
    (by decide) rfl

/-- Unfolding of `analyze_trends` once the patient's history is known. -/
lemma analyze_trends_some (g : Nat → Int → Int → Int → ℚ → String)
    (self : VitalSignsMonitor) (pid : String) (days : Int) (hist : List VitalSigns)
    (hh : self.patient_data pid = some hist) :
    analyze_trends g self pid days =
      if hist.isEmpty then some (.failure "No data available")
      else
        match (pySliceFrom ((-days) * 3) hist).getLast? with
        | none => none
        | some last =>
          some (.summary ⟨pid, days, (pySliceFrom ((-days) * 3) hist).length,
            g (pySliceFrom ((-days) * 3) hist).length last.blood_pressure_systolic
              last.blood_pressure_diastolic last.heart_rate last.temperature⟩) := by
  unfold analyze_trends
  rw [hh]

/-- C8: for a patient with non-empty history and any days argument at least 1,
`analyze_trends` selects exactly the most recent `days * 3` readings (all of
them when the history is shorter) — the suffix of the history of length
`min (days * 3) (length hist)` — and returns that count together with the
window size `days`. -/
theorem analyze_trends_window_selection (g : Nat → Int → Int → Int → ℚ → String)
    (self : VitalSignsMonitor) (pid : String) (days : Int) (hist : List VitalSigns)
    (hh : self.patient_data pid = some hist) (hne : hist ≠ [])
    (hd : 1 ≤ days) :
    pySliceFrom ((-days) * 3) hist =
      hist.drop (hist.length - (days * 3).toNat) ∧
    ∃ s, analyze_trends g self pid days = some (.summary s) ∧
      s.patient_id = pid ∧ s.period_days = days ∧
      s.readings_analyzed = min (days * 3).toNat hist.length := by
  have hslice : pySliceFrom ((-days) * 3) hist =
      hist.drop (hist.length - (days * 3).toNat) := by
    simp only [pySliceFrom]
    rw [if_pos (by omega : (-days) * 3 < 0)]
    congr 1
    omega
  have hlen : (hist.drop (hist.length - (days * 3).toNat)).length =
      min (days * 3).toNat hist.length := by
    rw [List.length_drop]
    omega
  have hn : 0 < hist.length := List.length_pos.mpr hne
  have hrec_ne : hist.drop (hist.length - (days * 3).toNat) ≠ [] := by
    intro hc
    have hc' := congrArg List.length hc
    rw [hlen] at hc'
    simp only [List.length_nil] at hc'
    omega
  obtain ⟨last, hlast⟩ := Option.isSome_iff_exists.mp
    (List.getLast?_isSome.mpr hrec_ne)
  refine ⟨hslice, ⟨pid, days, (pySliceFrom ((-days) * 3) hist).length,
      g (pySliceFrom ((-days) * 3) hist).length last.blood_pressure_systolic
        last.blood_pressure_diastolic last.heart_rate last.temperature⟩,
    ?_, rfl, rfl, ?_⟩
  · rw [analyze_trends_some g self pid days hist hh,
      if_neg (by simp [List.isEmpty_iff, hne])]
    rw [show pySliceFrom ((-days) * 3) hist =
        hist.drop (hist.length - (days * 3).toNat) from hslice, hlast]
  · show (pySliceFrom ((-days) * 3) hist).length = _
    rw [hslice, hlen]

/-- Witness for C8: one reading, window 1 day: the selection is the whole
one-element history and the summary reports 1 reading over 1 day. -/
theorem analyze_trends_window_selection_witness :
    pySliceFrom ((-(1 : Int)) * 3) [(⟨"p1", 1, 120, 80, 75, 37, none, none⟩ : VitalSigns)] =
      [(⟨"p1", 1, 120, 80, 75, 37, none, none⟩ : VitalSigns)].drop
        ([(⟨"p1", 1, 120, 80, 75, 37, none, none⟩ : VitalSigns)].length - ((1 : Int) * 3).toNat) ∧
    ∃ s, analyze_trends (fun _ _ _ _ _ => "")
        ⟨⟨none, none, none⟩, fun p => if p = "p1"
          then some [⟨"p1", 1, 120, 80, 75, 37, none, none⟩] else none⟩
        "p1" 1 = some (.summary s) ∧
      s.patient_id = "p1" ∧ s.period_days = 1 ∧
      s.readings_analyzed = min ((1 : Int) * 3).toNat
        [(⟨"p1", 1, 120, 80, 75, 37, none, none⟩ : VitalSigns)].length :=
  analyze_trends_window_selection (fun _ _ _ _ _ => "")
    ⟨⟨none, none, none⟩, fun p => if p = "p1"
      then some [⟨"p1", 1, 120, 80, 75, 37, none, none⟩] else none⟩
    "p1" 1 [⟨"p1", 1, 120, 80, 75, 37, none, none⟩]
    (by decide) (by decide) (by decide)

/-- C10: with days = 0 the slice start is `-0*3 = 0`, so the source selects the
entire history rather than zero readings: for a patient with non-empty history,
`analyze_trends` with days 0 reports the full history length. -/
theorem analyze_trends_zero_days_full_history
    (g : Nat → Int → Int → Int → ℚ → String) (self : VitalSignsMonitor)
    (pid : String) (hist : List VitalSigns)
    (hh : self.patient_data pid = some hist) (hne : hist ≠ []) :
    pySliceFrom ((-(0 : Int)) * 3) hist = hist ∧
    ∃ s, analyze_trends g self pid 0 = some (.summary s) ∧
      s.readings_analyzed = hist.length := by
  have hslice : pySliceFrom ((-(0 : Int)) * 3) hist = hist := by
    simp [pySliceFrom]
  obtain ⟨last, hlast⟩ := Option.isSome_iff_exists.mp
    (List.getLast?_isSome.mpr (by rw [hslice]; exact hne :
      pySliceFrom ((-(0 : Int)) * 3) hist ≠ []))
  refine ⟨hslice, ⟨pid, 0, (pySliceFrom ((-(0 : Int)) * 3) hist).length,
      g (pySliceFrom ((-(0 : Int)) * 3) hist).length last.blood_pressure_systolic
        last.blood_pressure_diastolic last.heart_rate last.temperature⟩,
    ?_, ?_⟩
  · rw [analyze_trends_some g self pid 0 hist hh,
      if_neg (by simp [List.isEmpty_iff, hne]), hlast]
  · show (pySliceFrom ((-(0 : Int)) * 3) hist).length = _
    rw [hslice]

/-- Witness for C10: a two-reading history analyzed with days = 0 reports both
readings. -/
theorem analyze_trends_zero_days_full_history_witness :
    pySliceFrom ((-(0 : Int)) * 3)
        [(⟨"p1", 1, 120, 80, 75, 37, none, none⟩ : VitalSigns),
         ⟨"p1", 2, 121, 81, 76, 37, none, none⟩] =
      [(⟨"p1", 1, 120, 80, 75, 37, none, none⟩ : VitalSigns),
       ⟨"p1", 2, 121, 81, 76, 37, none, none⟩] ∧
    ∃ s, analyze_trends (fun _ _ _ _ _ => "")
        ⟨⟨none, none, none⟩, fun p => if p = "p1"
          then some [⟨"p1", 1, 120, 80, 75, 37, none, none⟩,
            ⟨"p1", 2, 121, 81, 76, 37, none, none⟩] else none⟩
        "p1" 0 = some (.summary s) ∧
      s.readings_analyzed =
        [(⟨"p1", 1, 120, 80, 75, 37, none, none⟩ : VitalSigns),
         ⟨"p1", 2, 121, 81, 76, 37, none, none⟩].length :=
  analyze_trends_zero_days_full_history (fun _ _ _ _ _ => "")
    ⟨⟨none, none, none⟩, fun p => if p = "p1"
      then some [⟨"p1", 1, 120, 80, 75, 37, none, none⟩,
        ⟨"p1", 2, 121, 81, 76, 37, none, none⟩] else none⟩
    "p1" [⟨"p1", 1, 120, 80, 75, 37, none, none⟩,
      ⟨"p1", 2, 121, 81, 76, 37, none, none⟩]
    (by decide) (by decide)

end HealthGuardian
